import Mathlib

/-!
# Verification of the deepfake-detection-level signal-to-verdict pipeline

Shallow embedding of the core logic of the repository:

* `blink_detector.py` — the debounced EAR blink counter and its suspicion
  heuristic (`analyze_blink`);
* `level-3-headpose/headpose_detector.py` — the head-pose result assembly
  (`analyze_headpose`);
* `level-4-texture/texture_detector.py` — the texture score aggregator
  (`analyze_texture`);
* the four `evaluate_*.py` decision wrappers (`analyze_video`) and dataset
  evaluators (`process_dataset`);
* `orchestrator.py` — the result-collection logic (`run_detector`, `main`).

Python floats are embedded as rationals (`ℚ`).  Video decoding, landmark
localization and the external texture classifier are out of scope (per the
spec they are external collaborators); the detectors are therefore modelled
as functions of the per-frame measurement streams those collaborators
produce.
-/

namespace Deepfake

/-- A binary video label, either ground truth or prediction
(the strings "FAKE" / "REAL" in the Python code). -/
inductive Label
  | FAKE
  | REAL
deriving DecidableEq, Repr

/-! ## Blink detector state machine (`blink_detector.py`) -/
/-- `EAR_THRESHOLD = 0.25` from `blink_detector.py`. -/
def EAR_THRESHOLD : ℚ := 25 / 100

/-- `CONSEC_FRAMES = 2` from `blink_detector.py`. -/
def CONSEC_FRAMES : ℕ := 2

/-- The mutable per-video state of the blink loop:
`blink_count` and the debounce `counter`. -/
structure BlinkState where
  blink_count : ℕ
  counter : ℕ
deriving DecidableEq, Repr

/-- One iteration of the blink-detection branch of the loop in
`analyze_blink` (`blink_detector.py` lines 81-88):
`if ear < EAR_THRESHOLD: counter += 1
 else: (if counter >= CONSEC_FRAMES: blink_count += 1); counter = 0`. -/
def blinkStep (s : BlinkState) (ear : ℚ) : BlinkState :=
  if ear < EAR_THRESHOLD then
    { blink_count := s.blink_count, counter := s.counter + 1 }
  else if CONSEC_FRAMES ≤ s.counter then
    { blink_count := s.blink_count + 1, counter := 0 }
  else
    { blink_count := s.blink_count, counter := 0 }

/-- The blink loop over the sequence of EAR values of the frames in which a
face was found, starting from `blink_count = 0, counter = 0`. -/
def blinkRun (ears : List ℚ) : BlinkState :=
  ears.foldl blinkStep ⟨0, 0⟩

/-- Length of the trailing run of consecutive EAR values below
`EAR_THRESHOLD` — what the debounce counter tracks. -/
def trailingLow (ears : List ℚ) : ℕ :=
  (ears.reverse.takeWhile (fun x => decide (x < EAR_THRESHOLD))).length

/-! ## Detector results and per-video decision wrappers -/
/-- The spec's `DetectorResult` view of the dictionaries returned by
`analyze_blink` / `analyze_headpose`: success flag, optional failure reason,
numeric metrics, suspicion flag and the orderered reason list. -/
structure DetectorResult where
  success : Bool
  reason : Option String
  metrics : List (String × ℚ)
  suspicious : Bool
  reasons : List String
deriving DecidableEq, Repr

/-- The dictionary returned by `analyze_texture`
(`level-4-texture/texture_detector.py` lines 29-84).  Note that its metric
fields are initialised to `0` / `[]` and are present even in failure
results, and that it carries no `suspicious` / `reasons` fields. -/
structure TextureResult where
  success : Bool
  reason : Option String
  frames_analyzed : ℕ
  fake_ratio : ℚ
  avg_score : ℚ
  frame_scores : List ℚ
deriving DecidableEq, Repr

/-- The prediction/confidence part of the per-video record built by each
family's `analyze_video`; initialised to `(None, 0)` in the Python code. -/
structure Verdict where
  prediction : Option Label
  confidence : ℚ
deriving DecidableEq, Repr

/-- Decision wrapper of `level-2-blink/evaluate_blink.py` `analyze_video`
(lines 27-36): on success, `suspicious → (FAKE, 0.8)` else `(REAL, 0.9)`;
otherwise the record keeps `prediction = None, confidence = 0`. -/
def blinkAnalyzeVideo (r : DetectorResult) : Verdict :=
  if r.success then
    if r.suspicious then ⟨some .FAKE, 8/10⟩ else ⟨some .REAL, 9/10⟩
  else ⟨none, 0⟩

/-- Decision wrapper of `level-3-headpose/evaluate_headpose.py`
`analyze_video` (lines 29-38): same rule and constants as blink. -/
def headposeAnalyzeVideo (r : DetectorResult) : Verdict :=
  if r.success then
    if r.suspicious then ⟨some .FAKE, 8/10⟩ else ⟨some .REAL, 9/10⟩
  else ⟨none, 0⟩

/-- Decision wrapper of `level-1-emotion/evaluate_emotion.py`
`analyze_video` (lines 32-44): failure returns early with the `(None, 0)`
record; on success `suspicious → (FAKE, 0.85)` else `(REAL, 0.80)`. -/
def emotionAnalyzeVideo (r : DetectorResult) : Verdict :=
  if ¬ r.success then ⟨none, 0⟩
  else if r.suspicious then ⟨some .FAKE, 85/100⟩ else ⟨some .REAL, 80/100⟩

/-- Decision wrapper of `level-4-texture/evaluate_texture.py`
`analyze_video` (lines 29-41): failure returns early; on success
`avg_score < 0.8 → (FAKE, avg_score)` else `(REAL, 1 - avg_score)`. -/
def textureAnalyzeVideo (t : TextureResult) : Verdict :=
  if ¬ t.success then ⟨none, 0⟩
  else if t.avg_score < 8/10 then ⟨some .FAKE, t.avg_score⟩
  else ⟨some .REAL, 1 - t.avg_score⟩

/-- Modelled from the spec: the blink row of the decision-rule table in
§4.4 (`suspicious → FAKE` at fixed 0.8, else REAL at fixed 0.9). -/
def specBlinkRule (suspicious : Bool) : Verdict :=
  if suspicious then ⟨some .FAKE, 8/10⟩ else ⟨some .REAL, 9/10⟩

/-- Modelled from the spec: the headpose row of the §4.4 table
(identical to the blink row). -/
def specHeadposeRule (suspicious : Bool) : Verdict :=
  if suspicious then ⟨some .FAKE, 8/10⟩ else ⟨some .REAL, 9/10⟩

/-- Modelled from the spec: the emotion row of the §4.4 table
(`suspicious → FAKE` at fixed 0.85, else REAL at fixed 0.80). -/
def specEmotionRule (suspicious : Bool) : Verdict :=
  if suspicious then ⟨some .FAKE, 85/100⟩ else ⟨some .REAL, 80/100⟩

/-- Modelled from the spec: the texture row of the §4.4 table
(`avg_score < 0.8 → FAKE` at `avg_score`, else REAL at `1 − avg_score`). -/
def specTextureRule (avg_score : ℚ) : Verdict :=
  if avg_score < 8/10 then ⟨some .FAKE, avg_score⟩
  else ⟨some .REAL, 1 - avg_score⟩

/-! ## Dataset evaluator metrics

The metrics loop of `process_dataset` in `evaluate_emotion.py`
(lines 160-186) and `evaluate_texture.py` (identical, lines 131-157)
accumulates a confusion matrix and a correct count over the labeled
verdicts, skipping verdicts whose prediction is `None`.  A labeled verdict
is embedded as a pair `(ground_truth, prediction)`. -/
/-- The accumulator `tp = tn = fp = fn = correct = 0` of the metrics loop. -/
structure Conf where
  tp : ℕ
  tn : ℕ
  fp : ℕ
  fn : ℕ
  correct : ℕ
deriving DecidableEq, Repr

/-- One iteration of the metrics loop: `if not pred: continue`;
`if pred == gt: correct += 1`; then the four-way `if/elif` on
`(gt, pred)` assigning TP / TN / FP / FN. -/
def confStep (c : Conf) (v : Label × Option Label) : Conf :=
  match v with
  | (_, none) => c
  | (gt, some p) =>
    let correct := if p = gt then c.correct + 1 else c.correct
    match gt, p with
    | .FAKE, .FAKE => ⟨c.tp + 1, c.tn, c.fp, c.fn, correct⟩
    | .REAL, .REAL => ⟨c.tp, c.tn + 1, c.fp, c.fn, correct⟩
    | .REAL, .FAKE => ⟨c.tp, c.tn, c.fp + 1, c.fn, correct⟩
    | .FAKE, .REAL => ⟨c.tp, c.tn, c.fp, c.fn + 1, correct⟩

/-- The metrics loop over all labeled verdicts. -/
def confusion (l : List (Label × Option Label)) : Conf :=
  l.foldl confStep ⟨0, 0, 0, 0, 0⟩

/-- Closed-form TP: verdicts with ground truth FAKE predicted FAKE. -/
def tpCount (l : List (Label × Option Label)) : ℕ :=
  l.countP (fun v => decide (v.1 = Label.FAKE ∧ v.2 = some Label.FAKE))

/-- Closed-form TN: verdicts with ground truth REAL predicted REAL. -/
def tnCount (l : List (Label × Option Label)) : ℕ :=
  l.countP (fun v => decide (v.1 = Label.REAL ∧ v.2 = some Label.REAL))

/-- Closed-form FP: verdicts with ground truth REAL predicted FAKE. -/
def fpCount (l : List (Label × Option Label)) : ℕ :=
  l.countP (fun v => decide (v.1 = Label.REAL ∧ v.2 = some Label.FAKE))

/-- Closed-form FN: verdicts with ground truth FAKE predicted REAL. -/
def fnCount (l : List (Label × Option Label)) : ℕ :=
  l.countP (fun v => decide (v.1 = Label.FAKE ∧ v.2 = some Label.REAL))

/-- Closed-form correct count: prediction equals ground truth
(a `None` prediction never equals a ground-truth label). -/
def correctCount (l : List (Label × Option Label)) : ℕ :=
  l.countP (fun v => decide (v.2 = some v.1))

/-- Sum of the four confusion-matrix cells. -/
def cellSum (c : Conf) : ℕ := c.tp + c.tn + c.fp + c.fn

/-- The summary block computed by `process_dataset` in
`evaluate_emotion.py` / `evaluate_texture.py`. -/
structure Summary where
  accuracy : ℚ
  precision : ℚ
  recall_pct : ℚ
  f1 : ℚ
  tp : ℕ
  tn : ℕ
  fp : ℕ
  fn : ℕ
deriving DecidableEq, Repr

/-- Metrics block of `evaluate_emotion.py` `process_dataset`
(lines 160-186) and the identical block of `evaluate_texture.py`
(lines 131-157): `acc = correct / total_valid * 100` with
`total_valid = tp+tn+fp+fn`, `precision = tp/(tp+fp)*100`,
`recall = tp/(tp+fn)*100`, `f1 = 2*precision*recall/(precision+recall)`;
each guarded by the Python truthiness test on its denominator
(`(x) if d else 0`). -/
def evalSummary (l : List (Label × Option Label)) : Summary :=
  let c := confusion l
  let total_valid := c.tp + c.tn + c.fp + c.fn
  let acc : ℚ :=
    if total_valid = 0 then 0 else (c.correct : ℚ) / total_valid * 100
  let precision : ℚ :=
    if c.tp + c.fp = 0 then 0 else (c.tp : ℚ) / (c.tp + c.fp) * 100
  let recall_pct : ℚ :=
    if c.tp + c.fn = 0 then 0 else (c.tp : ℚ) / (c.tp + c.fn) * 100
  let f1 : ℚ :=
    if precision + recall_pct = 0 then 0
    else 2 * precision * recall_pct / (precision + recall_pct)
  ⟨acc, precision, recall_pct, f1, c.tp, c.tn, c.fp, c.fn⟩

/-- Metrics block of `evaluate_blink.py` `process_dataset` (lines 125-127):
`correct = Σ[prediction == ground_truth]` over ALL records,
`total = len(all_results)`, `accuracy = (correct/total*100) if total > 0
else 0` — no confusion matrix, precision, recall or F1. -/
def blinkSummaryAccuracy (l : List (Label × Option Label)) : ℚ :=
  let correct := l.countP (fun v => decide (v.2 = some v.1))
  let total := l.length
  if 0 < total then (correct : ℚ) / total * 100 else 0

/-- Metrics block of `evaluate_headpose.py` `process_dataset`
(lines 162-168), identical to the blink one. -/
def headposeSummaryAccuracy (l : List (Label × Option Label)) : ℚ :=
  let correct := l.countP (fun v => decide (v.2 = some v.1))
  let total := l.length
  if 0 < total then (correct : ℚ) / total * 100 else 0

/-- Modelled from the spec: `accuracy = correct / (TP+TN+FP+FN) × 100`,
evaluating to 0 when the denominator is 0, where `correct` counts verdicts
whose prediction equals their ground truth. -/
def specAccuracy (l : List (Label × Option Label)) : ℚ :=
  let denom := tpCount l + tnCount l + fpCount l + fnCount l
  if denom = 0 then 0 else (correctCount l : ℚ) / denom * 100

/-- Modelled from the spec: `precision = TP/(TP+FP) × 100`, 0 on a zero
denominator. -/
def specPrecision (l : List (Label × Option Label)) : ℚ :=
  if tpCount l + fpCount l = 0 then 0
  else (tpCount l : ℚ) / (tpCount l + fpCount l) * 100

/-- Modelled from the spec: `recall = TP/(TP+FN) × 100`, 0 on a zero
denominator. -/
def specRecall (l : List (Label × Option Label)) : ℚ :=
  if tpCount l + fnCount l = 0 then 0
  else (tpCount l : ℚ) / (tpCount l + fnCount l) * 100

/-- Modelled from the spec: `f1 = 2·precision·recall/(precision+recall)`,
0 on a zero denominator. -/
def specF1 (l : List (Label × Option Label)) : ℚ :=
  if specPrecision l + specRecall l = 0 then 0
  else 2 * specPrecision l * specRecall l / (specPrecision l + specRecall l)

/-! ## Texture authenticity aggregator
(`level-4-texture/texture_detector.py`) -/
/-- `THRESHOLD = 0.5` from `texture_detector.py`. -/
def THRESHOLD : ℚ := 1/2

/-- `np.mean` of a list of scores (in ℚ the empty case gives `0/0 = 0`,
but `analyze_texture` only takes the mean of a non-empty list). -/
def listMean (l : List ℚ) : ℚ := l.sum / l.length

/-- `analyze_texture` (`texture_detector.py` lines 27-84) as a function of
the sequence of classifier scores the sampled face crops produced (face
detection, cropping and the external classifier are collaborators): the
result dictionary starts as
`{success: False, frames_analyzed: 0, fake_ratio: 0, avg_score: 0,
frame_scores: []}`; with no scores it gains `reason = "no_faces_detected"`
and is returned as-is, otherwise it is updated with
`avg_score = mean(scores)` and `fake_ratio = mean(scores > THRESHOLD)`
(the fraction of scores strictly above the threshold). -/
def analyze_texture (scores : List ℚ) : TextureResult :=
  if scores.length = 0 then
    ⟨false, some "no_faces_detected", 0, 0, 0, []⟩
  else
    ⟨true, none, scores.length,
      (scores.countP (fun x => decide (THRESHOLD < x)) : ℚ) / scores.length,
      listMean scores, scores⟩

/-! ## Full detector pipelines and the `DetectorResult` invariant -/
/-- Population variance (`np.std` squared) of a list. -/
def listVar (l : List ℚ) : ℚ :=
  listMean (l.map (fun x => (x - listMean l) * (x - listMean l)))

/-- The `deque(maxlen=5)` EAR history: the last 5 appended values. -/
def rollingWindow (l : List ℚ) : List ℚ := l.drop (l.length - 5)

/-- `frame_interval = 3`, the default of `analyze_blink` used by
`evaluate_blink.analyze_video`. -/
def FRAME_INTERVAL : ℕ := 3

/-- `fps = 30  # assume 30 fps` from `blink_detector.py`. -/
def ASSUMED_FPS : ℕ := 30

/-- `std_ear < 0.008` (`blink_detector.py` line 130) embedded on the
squared scale: `std_ear` is the square root of the population variance
(irrational in general), so the comparison is carried out equivalently as
`var_ear < 0.008²`. -/
def LOW_EAR_VARIANCE_SQ : ℚ := (8/1000) * (8/1000)

/-- The suspicion reason list built by `analyze_blink`
(`blink_detector.py` lines 118-137), in append order:
`low_blink_rate` if rate < 5 elif `high_blink_rate` if rate > 50;
`low_ear_variance` if the EAR std-dev is below 0.008 (variance below
0.008²); `abnormal_ear` if the window-mean EAR is < 0.12 or > 0.38. -/
def blinkReasonList (rate avg varq : ℚ) : List String :=
  (if rate < 5 then ["low_blink_rate"]
   else if 50 < rate then ["high_blink_rate"] else [])
  ++ (if varq < LOW_EAR_VARIANCE_SQ then ["low_ear_variance"] else [])
  ++ (if avg < 12/100 ∨ 38/100 < avg then ["abnormal_ear"] else [])

/-- The `suspicious` flag of `analyze_blink`: set (in lockstep with the
reason appends) exactly when one of the four conditions fires. -/
def blinkSuspiciousFlag (rate avg varq : ℚ) : Bool :=
  decide (rate < 5) || decide (50 < rate)
  || decide (varq < LOW_EAR_VARIANCE_SQ)
  || decide (avg < 12/100 ∨ 38/100 < avg)

/-- `analyze_blink` (`blink_detector.py` lines 47-162) as a function of the
per-sampled-frame face observations: `none` means the video could not be
opened; otherwise the list holds, for each processed frame (every
`frame_interval`-th decoded frame, at most `max_frames` of them), the
average EAR if a face was found, `none` otherwise.  Faceless frames count
toward `processed_frames` but do not touch the blink state machine or the
EAR history. -/
def analyze_blink (video : Option (List (Option ℚ))) : DetectorResult :=
  match video with
  | none => ⟨false, some "cannot_open_video", [], false, []⟩
  | some frames =>
    let ears := frames.filterMap id
    if ears.isEmpty then ⟨false, some "no_faces_detected", [], false, []⟩
    else
      let st := blinkRun ears
      let window := rollingWindow ears
      let avg_ear := listMean window
      let var_ear := listVar window
      let processed := frames.length
      let duration : ℚ := ((processed * FRAME_INTERVAL : ℕ) : ℚ) / ASSUMED_FPS
      let rate : ℚ :=
        if 0 < duration then ((st.blink_count : ℚ) / duration) * 60 else 0
      ⟨true, none,
        [("blink_count", (st.blink_count : ℚ)),
         ("blink_rate_per_minute", rate),
         ("avg_ear", avg_ear), ("std_ear_sq", var_ear),
         ("processed_frames", (processed : ℚ))],
        blinkSuspiciousFlag rate avg_ear var_ear,
        blinkReasonList rate avg_ear var_ear⟩

/-- `1e-6`, the `too_smooth_motion` threshold of `headpose_detector.py`. -/
def SPEED_VAR_TOO_SMOOTH : ℚ := 1/1000000

/-- `0.01`, the `jittery_motion` threshold of `headpose_detector.py`. -/
def SPEED_VAR_JITTERY : ℚ := 1/100

/-- The suspicion reason list built by `analyze_headpose`
(`headpose_detector.py` lines 149-159): `too_smooth_motion` if
`speed_variance < 1e-6`, `jittery_motion` if `speed_variance > 0.01`
(two independent `if`s). -/
def headposeReasonList (speed_variance : ℚ) : List String :=
  (if speed_variance < SPEED_VAR_TOO_SMOOTH then ["too_smooth_motion"] else [])
  ++ (if SPEED_VAR_JITTERY < speed_variance then ["jittery_motion"] else [])

/-- The `suspicious` flag of `analyze_headpose`, set in lockstep with the
two reason appends. -/
def headposeSuspiciousFlag (speed_variance : ℚ) : Bool :=
  decide (speed_variance < SPEED_VAR_TOO_SMOOTH)
  || decide (SPEED_VAR_JITTERY < speed_variance)

/-- The success dictionary assembled by `analyze_headpose`
(`headpose_detector.py` lines 161-174).  The numeric metric values (means,
variances and the norm-based speed statistics, which involve square roots)
are taken as parameters; only the result assembly and the suspicion
heuristic are in scope for the invariants. -/
def headposeSuccessResult (frames_analyzed total_video_frames : ℕ)
    (avg_pitch avg_yaw avg_roll pose_variance avg_speed speed_variance : ℚ)
    (debug_frames_saved : ℕ) : DetectorResult :=
  ⟨true, none,
    [("frames_analyzed", (frames_analyzed : ℚ)),
     ("total_video_frames", (total_video_frames : ℚ)),
     ("avg_pitch", avg_pitch), ("avg_yaw", avg_yaw), ("avg_roll", avg_roll),
     ("pose_variance", pose_variance), ("avg_speed", avg_speed),
     ("speed_variance", speed_variance),
     ("debug_frames_saved", (debug_frames_saved : ℚ))],
    headposeSuspiciousFlag speed_variance,
    headposeReasonList speed_variance⟩

/-- The failure dictionaries of `analyze_headpose`
(`headpose_detector.py` lines 24-25 and 128-129): bare
`{success: False, reason}` with no metric, suspicion or reason fields. -/
def headposeFailureResult (reason : String) : DetectorResult :=
  ⟨false, some reason, [], false, []⟩

/-- The spec's `DetectorResult` view of a texture dictionary: the numeric
fields `frames_analyzed`, `fake_ratio`, `avg_score` form the metrics
mapping (they are present, zero-initialised, even in failure results);
the dictionary has no `suspicious` or `reasons` keys, so those read as
`false` / empty. -/
def textureDetectorResult (t : TextureResult) : DetectorResult :=
  ⟨t.success, t.reason,
    [("frames_analyzed", (t.frames_analyzed : ℚ)),
     ("fake_ratio", t.fake_ratio), ("avg_score", t.avg_score)],
    false, []⟩

/-- The spec's §3 invariant on a `DetectorResult`. -/
def resultInvariant (r : DetectorResult) : Prop :=
  (r.success = false → r.metrics = [] ∧ r.suspicious = false)
  ∧ (r.reasons ≠ [] ↔ r.suspicious = true)

/-! ## Dataset processing (`process_dataset` of the four evaluators)

A dataset directory is embedded as `Option (List String)`: `none` when
`os.path.exists` is false, otherwise the unordered directory listing.  The
per-video analysis (`analyze_video` applied to a real file) is a parameter;
JSON serialisation and printing are presentation concerns. -/
/-- The `video_extensions` whitelist shared by all four evaluators. -/
def VIDEO_EXTENSIONS : List String := [".mp4", ".avi", ".mov", ".mkv", ".flv"]

/-- `any(f.lower().endswith(ext) for ext in video_extensions)`. -/
def hasVideoExtension (f : String) : Bool :=
  VIDEO_EXTENSIONS.any (fun ext => f.toLower.endsWith ext)

/-- `collect_videos`: a missing directory yields an empty batch, otherwise
the sorted listing filtered by the extension whitelist
(`evaluate_emotion.py` lines 100-107 and the inline equivalents in the
other three evaluators). -/
def collect_videos (folder : Option (List String)) : List String :=
  match folder with
  | none => []
  | some fs => (fs.mergeSort (fun a b => a ≤ b)).filter hasVideoExtension

/-- One entry of the `all_results` list: the video path, the batch's
ground-truth label, and the wrapper's prediction/confidence. -/
structure VideoRecord where
  video_path : String
  ground_truth : Label
  verdict : Verdict
deriving DecidableEq, Repr

/-- The FAKE batch followed by the REAL batch, each in collection order. -/
def labeledVerdicts (analyze : String → Verdict)
    (fake real : List String) : List VideoRecord :=
  fake.map (fun p => ⟨p, Label.FAKE, analyze p⟩)
  ++ real.map (fun p => ⟨p, Label.REAL, analyze p⟩)

/-- Projection of the records to `(ground_truth, prediction)` pairs for the
metric computations. -/
def toPairs (rs : List VideoRecord) : List (Label × Option Label) :=
  rs.map (fun r => (r.ground_truth, r.verdict.prediction))

/-- `process_dataset` of `evaluate_blink.py` (lines 71-147): collect both
batches, and if no videos were found print "No videos found. Exiting..."
and return WITHOUT writing the report file (`none`); otherwise analyze all
videos and persist `{total_videos, accuracy, results}`. -/
def blinkProcessDataset (analyze : String → Verdict)
    (fake_dir real_dir : Option (List String)) :
    Option (ℕ × ℚ × List VideoRecord) :=
  let fake := collect_videos fake_dir
  let real := collect_videos real_dir
  if fake.length + real.length = 0 then none
  else
    let rs := labeledVerdicts analyze fake real
    some (rs.length, blinkSummaryAccuracy (toPairs rs), rs)

/-- `process_dataset` of `evaluate_headpose.py` (lines 87-190), the same
early-return shape as blink. -/
def headposeProcessDataset (analyze : String → Verdict)
    (fake_dir real_dir : Option (List String)) :
    Option (ℕ × ℚ × List VideoRecord) :=
  let fake := collect_videos fake_dir
  let real := collect_videos real_dir
  if fake.length + real.length = 0 then none
  else
    let rs := labeledVerdicts analyze fake real
    some (rs.length, headposeSummaryAccuracy (toPairs rs), rs)

/-- `process_dataset` of `evaluate_emotion.py` (lines 92-227): early return
without a report when no videos are found, otherwise the full
confusion-matrix summary is persisted. -/
def emotionProcessDataset (analyze : String → Verdict)
    (fake_dir real_dir : Option (List String)) :
    Option (Summary × List VideoRecord) :=
  let fake := collect_videos fake_dir
  let real := collect_videos real_dir
  if fake.length + real.length = 0 then none
  else
    let rs := labeledVerdicts analyze fake real
    some (evalSummary (toPairs rs), rs)

/-- `process_dataset` of `evaluate_texture.py` (lines 77-200): it has NO
zero-video early return — the summary is computed and the report written
unconditionally. -/
def textureProcessDataset (analyze : String → Verdict)
    (fake_dir real_dir : Option (List String)) :
    Option (Summary × List VideoRecord) :=
  let fake := collect_videos fake_dir
  let real := collect_videos real_dir
  let rs := labeledVerdicts analyze fake real
  some (evalSummary (toPairs rs), rs)

/-! ## Orchestrator (`orchestrator.py`)

A family task's observable outcome: whether the subprocess exited zero
(`check=True` raises `CalledProcessError` otherwise), whether its stdout
parsed as JSON, and whether the fallback report file was readable JSON.
The summary payload type is abstract. -/
/-- The four detector families, in the insertion order of the `SCRIPTS`
dictionary. -/
inductive Family
  | emotion
  | blink
  | headpose
  | texture
deriving DecidableEq, Repr

/-- The family's key string in `SCRIPTS`. -/
def familyName : Family → String
  | .emotion => "emotion"
  | .blink => "blink"
  | .headpose => "headpose"
  | .texture => "texture"

/-- The fixed key order of the `SCRIPTS` dict: tasks are submitted, and
their futures collected, in this order. -/
def familyOrder : List Family :=
  [Family.emotion, Family.blink, Family.headpose, Family.texture]

/-- What the orchestrator can observe of one family task. -/
structure TaskOutcome (α : Type) where
  exitOk : Bool
  stdoutJson : Option α
  fileJson : Option α

/-- `run_detector` (`orchestrator.py` lines 24-49): a non-zero exit
(`CalledProcessError`) yields `None`; otherwise the parsed stdout JSON if
it parses, else the fallback report file's JSON, else `None` (the bare
`except` around the file read). -/
def run_detector {α : Type} (o : TaskOutcome α) : Option α :=
  if o.exitOk then
    match o.stdoutJson with
    | some s => some s
    | none => o.fileJson
  else none

/-- The fallback filename chosen by `run_detector` on a stdout parse
failure (`orchestrator.py` lines 40-44): `emotion_evaluation.json` for
emotion, else the family name followed by `_evaluation.json`. -/
def fallbackFilename (f : Family) : String :=
  if f = Family.emotion then "emotion_evaluation.json"
  else familyName f ++ "_evaluation.json"

/-- The report file each evaluator actually persists when run as a script
by the orchestrator (the `output_file` passed in each `__main__` block:
`evaluate_emotion.py` line 238, `evaluate_blink.py` line 152,
`evaluate_headpose.py` line 197, `evaluate_texture.py` line 211). -/
def evaluatorOutputFile : Family → String
  | .emotion => "emotion_evaluation.json"
  | .blink => "blink_results.json"
  | .headpose => "headpose_results.json"
  | .texture => "texture_evaluation.json"

/-- `main` (`orchestrator.py` lines 54-63): futures are submitted in
`SCRIPTS` order and collected by iterating the futures list in that same
submission order (each `f.result()` blocks), so the results mapping is
keyed in the fixed family order independent of completion order. -/
def orchestratorMain {α : Type} (outcomes : Family → TaskOutcome α) :
    List (Family × Option α) :=
  familyOrder.map (fun f => (f, run_detector (outcomes f)))

/-- A task fails to deliver a result when its exit was non-zero, or its
stdout did not parse and the fallback file was unreadable. -/
def taskFailed {α : Type} (o : TaskOutcome α) : Bool :=
  !o.exitOk || (o.stdoutJson.isNone && o.fileJson.isNone)

/-! ## Theorems -/

lemma trailingLow_nil : trailingLow [] = 0 := rfl

lemma trailingLow_concat (l : List ℚ) (a : ℚ) :
    trailingLow (l ++ [a]) =
      if a < EAR_THRESHOLD then trailingLow l + 1 else 0 := by
  unfold trailingLow
  rw [List.reverse_append]
  by_cases h : a < EAR_THRESHOLD <;> simp [List.takeWhile, h]

lemma blinkRun_concat (l : List ℚ) (a : ℚ) :
    blinkRun (l ++ [a]) = blinkStep (blinkRun l) a := by
  unfold blinkRun
  rw [List.foldl_append]
  rfl

/-- The debounce counter always equals the length of the trailing run of
below-threshold EAR frames. -/
lemma blinkRun_counter (l : List ℚ) : (blinkRun l).counter = trailingLow l := by
  induction l using List.reverseRecOn with
  | nil => rfl
  | append_singleton l a ih =>
      rw [blinkRun_concat, trailingLow_concat]
      unfold blinkStep
      by_cases h : a < EAR_THRESHOLD
      · simp [h, ih]
      · by_cases h3 : CONSEC_FRAMES ≤ (blinkRun l).counter <;> simp [h, h3]

/-- C2: the blink counter increments `blink_count` exactly when a frame with
`EAR ≥ EAR_THRESHOLD` follows a run of at least `CONSEC_FRAMES` consecutive
frames with `EAR < EAR_THRESHOLD` (the debounce counter equals the length of
that trailing run), and resets the debounce counter to 0 on every frame with
`EAR ≥ EAR_THRESHOLD`; the EAR sequence `[0.30, 0.20, 0.18, 0.30]` yields
exactly 1 blink and `[0.30, 0.20, 0.30]` yields exactly 0 blinks. -/
theorem blink_count_increment_iff (l : List ℚ) (a : ℚ) :
    ((blinkRun (l ++ [a])).blink_count =
      (blinkRun l).blink_count +
        (if EAR_THRESHOLD ≤ a ∧ CONSEC_FRAMES ≤ trailingLow l then 1 else 0))
    ∧ ((blinkRun (l ++ [a])).counter =
        if a < EAR_THRESHOLD then (blinkRun l).counter + 1 else 0)
    ∧ (blinkRun l).counter = trailingLow l
    ∧ (blinkRun [30/100, 20/100, 18/100, 30/100]).blink_count = 1
    ∧ (blinkRun [30/100, 20/100, 30/100]).blink_count = 0 := by
  refine ⟨?_, ?_, blinkRun_counter l, ?_, ?_⟩
  case refine_3 =>
    norm_num [blinkRun, List.foldl, blinkStep, EAR_THRESHOLD, CONSEC_FRAMES]
  case refine_4 =>
    norm_num [blinkRun, List.foldl, blinkStep, EAR_THRESHOLD, CONSEC_FRAMES]
  · rw [blinkRun_concat, ← blinkRun_counter l]
    unfold blinkStep
    by_cases h : a < EAR_THRESHOLD
    · have h2 : ¬ EAR_THRESHOLD ≤ a := not_le.mpr h
      simp [h, h2]
    · have h2 : EAR_THRESHOLD ≤ a := not_lt.mp h
      by_cases h3 : CONSEC_FRAMES ≤ (blinkRun l).counter
      · simp [h, h2, h3]
      · simp [h, h2, h3]
  · rw [blinkRun_concat]
    unfold blinkStep
    by_cases h : a < EAR_THRESHOLD
    · simp [h]
    · by_cases h3 : CONSEC_FRAMES ≤ (blinkRun l).counter <;> simp [h, h3]

/-- C3: for every successful detector result, each family's decision
wrapper applies exactly its own rule with its own literal confidences, as
given by the spec's per-family rule table. -/
theorem decision_wrappers_follow_family_rules
    (rb rh re : DetectorResult) (rt : TextureResult)
    (hb : rb.success = true) (hh : rh.success = true)
    (he : re.success = true) (ht : rt.success = true) :
    blinkAnalyzeVideo rb = specBlinkRule rb.suspicious
    ∧ headposeAnalyzeVideo rh = specHeadposeRule rh.suspicious
    ∧ emotionAnalyzeVideo re = specEmotionRule re.suspicious
    ∧ textureAnalyzeVideo rt = specTextureRule rt.avg_score := by
  refine ⟨?_, ?_, ?_, ?_⟩ <;>
    simp [blinkAnalyzeVideo, headposeAnalyzeVideo, emotionAnalyzeVideo,
      textureAnalyzeVideo, specBlinkRule, specHeadposeRule, specEmotionRule,
      specTextureRule, hb, hh, he, ht]

/-- Witness for C3 at concrete successful results. -/
theorem decision_wrappers_follow_family_rules_witness :
    blinkAnalyzeVideo ⟨true, none, [], true, ["low_blink_rate"]⟩ =
      specBlinkRule true
    ∧ headposeAnalyzeVideo ⟨true, none, [], false, []⟩ =
        specHeadposeRule false
    ∧ emotionAnalyzeVideo ⟨true, none, [], true, ["flat_emotion"]⟩ =
        specEmotionRule true
    ∧ textureAnalyzeVideo ⟨true, none, 1, 0, 1/2, [1/2]⟩ =
        specTextureRule (1/2) :=
  decision_wrappers_follow_family_rules
    ⟨true, none, [], true, ["low_blink_rate"]⟩
    ⟨true, none, [], false, []⟩
    ⟨true, none, [], true, ["flat_emotion"]⟩
    ⟨true, none, 1, 0, 1/2, [1/2]⟩ rfl rfl rfl rfl

lemma foldl_confStep (c : Conf) (l : List (Label × Option Label)) :
    l.foldl confStep c =
      ⟨c.tp + tpCount l, c.tn + tnCount l, c.fp + fpCount l,
        c.fn + fnCount l, c.correct + correctCount l⟩ := by
  induction l generalizing c with
  | nil => simp [tpCount, tnCount, fpCount, fnCount, correctCount]
  | cons v l ih =>
      rw [List.foldl_cons, ih]
      rcases v with ⟨gt, _ | p⟩
      · simp [confStep, tpCount, tnCount, fpCount, fnCount, correctCount,
          List.countP_cons]
      · rcases gt <;> rcases p <;>
          simp [confStep, tpCount, tnCount, fpCount, fnCount, correctCount,
            List.countP_cons] <;> omega

lemma confusion_eq (l : List (Label × Option Label)) :
    confusion l =
      ⟨tpCount l, tnCount l, fpCount l, fnCount l, correctCount l⟩ := by
  simpa using foldl_confStep ⟨0, 0, 0, 0, 0⟩ l

lemma cells_sum (l : List (Label × Option Label)) :
    tpCount l + tnCount l + fpCount l + fnCount l =
      l.countP (fun v => v.2.isSome) := by
  induction l with
  | nil => rfl
  | cons v l ih =>
      simp only [tpCount, tnCount, fpCount, fnCount] at ih ⊢
      rcases v with ⟨gt, _ | p⟩
      · simp only [List.countP_cons]
        simp at ih ⊢
        omega
      · rcases gt <;> rcases p <;>
          (simp only [List.countP_cons]; simp at ih ⊢; omega)

/-- C7: a `None`-prediction verdict contributes to no confusion-matrix
cell and any other verdict to exactly one (appending a verdict raises the
cell sum by 1 exactly when its prediction is non-`None`), hence
`TP+TN+FP+FN ≤ total` with equality iff no prediction is `None`. -/
theorem confusion_cells_bound (l : List (Label × Option Label))
    (v : Label × Option Label) :
    (cellSum (confusion (l ++ [v])) =
      cellSum (confusion l) + if v.2.isSome then 1 else 0)
    ∧ cellSum (confusion l) = (l.filter (fun x => x.2.isSome)).length
    ∧ cellSum (confusion l) ≤ l.length
    ∧ (cellSum (confusion l) = l.length ↔ ∀ x ∈ l, x.2 ≠ none) := by
  have hsum : ∀ m : List (Label × Option Label),
      cellSum (confusion m) = m.countP (fun x => x.2.isSome) := by
    intro m
    rw [confusion_eq]
    simpa [cellSum] using cells_sum m
  refine ⟨?_, ?_, ?_, ?_⟩
  · rw [hsum, hsum, List.countP_append]
    rcases v with ⟨gt, _ | p⟩ <;> simp [List.countP_cons]
  · rw [hsum, List.countP_eq_length_filter]
  · rw [hsum]; exact List.countP_le_length _
  · rw [hsum]
    rw [List.countP_eq_length]
    constructor
    · intro h x hx
      have := h x hx
      simpa [Option.isSome_iff_ne_none] using this
    · intro h x hx
      simpa [Option.isSome_iff_ne_none] using h x hx

/-- C1 counterexample: on the batch `[(FAKE, None), (FAKE, FAKE)]` the
blink evaluator reports accuracy 50 (it divides by the total number of
videos, `None` predictions included), while the claimed formula
`correct / (TP+TN+FP+FN) × 100` gives 100. -/
theorem blink_accuracy_denominator_counterexample :
    blinkSummaryAccuracy [(Label.FAKE, none), (Label.FAKE, some Label.FAKE)]
      = 50
    ∧ specAccuracy [(Label.FAKE, none), (Label.FAKE, some Label.FAKE)] = 100
    ∧ blinkSummaryAccuracy
        [(Label.FAKE, none), (Label.FAKE, some Label.FAKE)] ≠
      specAccuracy [(Label.FAKE, none), (Label.FAKE, some Label.FAKE)] := by
  have htp :
      tpCount [(Label.FAKE, none), (Label.FAKE, some Label.FAKE)] = 1 := rfl
  have htn :
      tnCount [(Label.FAKE, none), (Label.FAKE, some Label.FAKE)] = 0 := rfl
  have hfp :
      fpCount [(Label.FAKE, none), (Label.FAKE, some Label.FAKE)] = 0 := rfl
  have hfn :
      fnCount [(Label.FAKE, none), (Label.FAKE, some Label.FAKE)] = 0 := rfl
  have hcc :
      correctCount [(Label.FAKE, none), (Label.FAKE, some Label.FAKE)] = 1 :=
    rfl
  have hcp :
      List.countP (fun v => decide (v.2 = some v.1))
        [(Label.FAKE, (none : Option Label)), (Label.FAKE, some Label.FAKE)]
        = 1 := rfl
  refine ⟨?_, ?_, ?_⟩ <;>
    · simp only [blinkSummaryAccuracy, specAccuracy, htp, htn, hfp, hfn,
        hcc, hcp, List.length_cons, List.length_nil]
      norm_num

/-- C1 (amended): the emotion and texture evaluators compute accuracy,
precision, recall and F1 exactly as the spec's formulas state, with every
zero-denominator ratio evaluating to 0; the blink and headpose evaluators
instead compute only `accuracy = correct / total × 100` whose denominator
is the total number of videos (including `None` predictions), and no
precision, recall or F1. -/
theorem evaluator_metric_formulas (l : List (Label × Option Label)) :
    (evalSummary l).accuracy = specAccuracy l
    ∧ (evalSummary l).precision = specPrecision l
    ∧ (evalSummary l).recall_pct = specRecall l
    ∧ (evalSummary l).f1 = specF1 l
    ∧ blinkSummaryAccuracy l =
        (if 0 < l.length then (correctCount l : ℚ) / l.length * 100 else 0)
    ∧ headposeSummaryAccuracy l = blinkSummaryAccuracy l := by
  have h := confusion_eq l
  refine ⟨?_, ?_, ?_, ?_, rfl, rfl⟩ <;>
    simp [evalSummary, specAccuracy, specPrecision, specRecall, specF1, h]

lemma count_ratio_step (k n : ℕ) (hk : k ≤ n) (hn : 0 < n) :
    (k : ℚ) / n ≤ (k + 1 : ℚ) / (n + 1) := by
  have hkq : (k : ℚ) ≤ n := by exact_mod_cast hk
  have hnq : (0 : ℚ) < n := by exact_mod_cast hn
  rw [div_le_div_iff₀ hnq (by positivity)]
  nlinarith

/-- C8: appending a score strictly above `THRESHOLD` never decreases the
`fake_ratio` computed by the texture aggregator. -/
theorem fake_ratio_monotone (l : List ℚ) (s : ℚ) (hs : THRESHOLD < s) :
    (analyze_texture l).fake_ratio ≤ (analyze_texture (l ++ [s])).fake_ratio := by
  have hs' : (fun x => decide (THRESHOLD < x)) s = true := by simpa using hs
  rcases eq_or_ne l [] with rfl | hl
  · have h2 : (analyze_texture ([] ++ [s])).fake_ratio =
        (List.countP (fun x => decide (THRESHOLD < x)) [s] : ℚ) / 1 := rfl
    rw [show (analyze_texture []).fake_ratio = 0 from rfl, h2]
    positivity
  · have hn0 : ¬ l.length = 0 := by
      simpa [List.length_eq_zero] using hl
    have hn1 : ¬ (l ++ [s]).length = 0 := by simp
    unfold analyze_texture
    rw [if_neg hn0, if_neg hn1]
    simp only [List.countP_append, List.length_append]
    have h1 : List.countP (fun x => decide (THRESHOLD < x)) [s] = 1 := by
      simp [List.countP_cons, hs']
    have hlen : [s].length = 1 := rfl
    rw [h1, hlen]
    have hkn := List.countP_le_length (fun x => decide (THRESHOLD < x)) (l := l)
    have hpos : 0 < l.length := List.length_pos.mpr hl
    have := count_ratio_step (l.countP (fun x => decide (THRESHOLD < x)))
      l.length hkn hpos
    push_cast at this ⊢
    simpa using this

/-- Witness for C8: appending the above-threshold score `3/4` to the batch
`[1/4]` raises the fake ratio from 0 to 1/2. -/
theorem fake_ratio_monotone_witness :
    THRESHOLD < 3/4
    ∧ (analyze_texture [1/4]).fake_ratio ≤
        (analyze_texture ([1/4] ++ [3/4])).fake_ratio :=
  ⟨by norm_num [THRESHOLD], fake_ratio_monotone [1/4] (3/4)
    (by norm_num [THRESHOLD])⟩

lemma listMean_bounds (l : List ℚ) (hl : l ≠ [])
    (h : ∀ x ∈ l, 0 ≤ x ∧ x ≤ 1) : 0 ≤ listMean l ∧ listMean l ≤ 1 := by
  have hlen : 0 < (l.length : ℚ) := by
    exact_mod_cast List.length_pos.mpr hl
  have hsum_le : l.sum ≤ (l.length : ℚ) := by
    have := List.sum_le_card_nsmul l 1 (fun x hx => (h x hx).2)
    simpa [nsmul_eq_mul] using this
  have hsum_ge : (0 : ℚ) ≤ l.sum := by
    have := List.card_nsmul_le_sum l 0 (fun x hx => (h x hx).1)
    simpa [nsmul_eq_mul] using this
  constructor
  · exact div_nonneg hsum_ge (le_of_lt hlen)
  · unfold listMean
    rw [div_le_one hlen]
    exact hsum_le

/-- C10: when every classifier score lies in `[0,1]`, the texture wrapper's
confidence lies in `[0,1]`; a REAL texture verdict never carries confidence
above 0.2, a FAKE texture verdict always carries confidence strictly below
0.8, and every confidence in `[0, 0.8)` is attained by some FAKE verdict. -/
theorem texture_confidence_bounds (scores : List ℚ)
    (hne : scores ≠ []) (hb : ∀ x ∈ scores, 0 ≤ x ∧ x ≤ 1) :
    0 ≤ (textureAnalyzeVideo (analyze_texture scores)).confidence
    ∧ (textureAnalyzeVideo (analyze_texture scores)).confidence ≤ 1
    ∧ ((textureAnalyzeVideo (analyze_texture scores)).prediction =
          some Label.REAL →
        (textureAnalyzeVideo (analyze_texture scores)).confidence ≤ 2/10)
    ∧ ((textureAnalyzeVideo (analyze_texture scores)).prediction =
          some Label.FAKE →
        (textureAnalyzeVideo (analyze_texture scores)).confidence < 8/10)
    ∧ ∀ c : ℚ, 0 ≤ c → c < 8/10 →
        (textureAnalyzeVideo (analyze_texture [c])).prediction =
          some Label.FAKE
        ∧ (textureAnalyzeVideo (analyze_texture [c])).confidence = c := by
  have hn0 : ¬ scores.length = 0 := by
    simpa [List.length_eq_zero] using hne
  have hmean := listMean_bounds scores hne hb
  have hav : (analyze_texture scores).avg_score = listMean scores := by
    unfold analyze_texture
    rw [if_neg hn0]
  have hsucc : (analyze_texture scores).success = true := by
    unfold analyze_texture
    rw [if_neg hn0]
  have hattain : ∀ c : ℚ, 0 ≤ c → c < 8/10 →
      (textureAnalyzeVideo (analyze_texture [c])).prediction =
        some Label.FAKE
      ∧ (textureAnalyzeVideo (analyze_texture [c])).confidence = c := by
    intro c _ hc8
    have hm : listMean [c] = c := by simp [listMean]
    simp [textureAnalyzeVideo, analyze_texture, hm, hc8]
  have h0 : 0 ≤ (analyze_texture scores).avg_score := by
    rw [hav]; exact hmean.1
  have h1 : (analyze_texture scores).avg_score ≤ 1 := by
    rw [hav]; exact hmean.2
  by_cases hlt : (analyze_texture scores).avg_score < 8/10
  · have hv : textureAnalyzeVideo (analyze_texture scores) =
        ⟨some Label.FAKE, (analyze_texture scores).avg_score⟩ := by
      unfold textureAnalyzeVideo
      rw [if_neg (by simp [hsucc]), if_pos hlt]
    rw [hv]
    dsimp only
    exact ⟨h0, h1, by intro h; simp at h, fun _ => hlt, hattain⟩
  · have hv : textureAnalyzeVideo (analyze_texture scores) =
        ⟨some Label.REAL, 1 - (analyze_texture scores).avg_score⟩ := by
      unfold textureAnalyzeVideo
      rw [if_neg (by simp [hsucc]), if_neg hlt]
    rw [hv]
    dsimp only
    have h8 : (8:ℚ)/10 ≤ (analyze_texture scores).avg_score := not_lt.mp hlt
    refine ⟨by linarith, by linarith, fun _ => by linarith,
      by intro h; simp at h, hattain⟩

/-- Witness for C10 at the single-score batch `[1/2]`. -/
theorem texture_confidence_bounds_witness :
    0 ≤ (textureAnalyzeVideo (analyze_texture [1/2])).confidence
    ∧ (textureAnalyzeVideo (analyze_texture [1/2])).confidence ≤ 1 := by
  have h := texture_confidence_bounds [1/2] (by simp)
    (by intro x hx; rw [List.mem_singleton] at hx; subst hx; norm_num)
  exact ⟨h.1, h.2.1⟩

lemma blinkReasonList_iff (rate avg varq : ℚ) :
    blinkReasonList rate avg varq ≠ [] ↔
      blinkSuspiciousFlag rate avg varq = true := by
  unfold blinkReasonList blinkSuspiciousFlag
  by_cases h1 : rate < 5 <;> by_cases h2 : 50 < rate <;>
    by_cases h3 : varq < LOW_EAR_VARIANCE_SQ <;>
    by_cases h4 : avg < 12/100 ∨ 38/100 < avg <;>
    simp [h1, h2, h3, h4]

lemma headposeReasonList_iff (sv : ℚ) :
    headposeReasonList sv ≠ [] ↔ headposeSuspiciousFlag sv = true := by
  unfold headposeReasonList headposeSuspiciousFlag
  by_cases h1 : sv < SPEED_VAR_TOO_SMOOTH <;>
    by_cases h2 : SPEED_VAR_JITTERY < sv <;> simp [h1, h2]

/-- C5 counterexample: a texture run with no detected faces returns a
failed result whose metrics mapping is NOT empty — it retains the
zero-initialised `frames_analyzed`, `fake_ratio` and `avg_score`
entries. -/
theorem failed_texture_metrics_nonempty_counterexample :
    (textureDetectorResult (analyze_texture [])).success = false
    ∧ (textureDetectorResult (analyze_texture [])).metrics ≠ [] := by
  constructor
  · rfl
  · simp [textureDetectorResult, analyze_texture]

/-- C5 (amended): every blink and headpose result satisfies the invariant
(failure implies empty metrics and an unset suspicion flag, and the reason
list is non-empty exactly when suspicious); texture results satisfy the
reasons/suspicious equivalence vacuously (never suspicious, no reason
list), but a failed texture result keeps its zero-initialised
`frames_analyzed` / `fake_ratio` / `avg_score` metric entries instead of
an empty metrics mapping. -/
theorem detector_result_invariant
    (video : Option (List (Option ℚ)))
    (fa tvf : ℕ) (ap ay ar pv asp sv : ℚ) (dbg : ℕ) (reason : String)
    (scores : List ℚ) :
    resultInvariant (analyze_blink video)
    ∧ resultInvariant
        (headposeSuccessResult fa tvf ap ay ar pv asp sv dbg)
    ∧ resultInvariant (headposeFailureResult reason)
    ∧ ((textureDetectorResult (analyze_texture scores)).success = false →
        (textureDetectorResult (analyze_texture scores)).metrics =
          [("frames_analyzed", 0), ("fake_ratio", 0), ("avg_score", 0)]
        ∧ (textureDetectorResult (analyze_texture scores)).suspicious =
            false)
    ∧ ((textureDetectorResult (analyze_texture scores)).reasons ≠ [] ↔
        (textureDetectorResult (analyze_texture scores)).suspicious =
          true) := by
  refine ⟨?_, ?_, ?_, ?_, ?_⟩
  · unfold resultInvariant
    rcases video with _ | frames
    · simp [analyze_blink]
    · cases he : (frames.filterMap id).isEmpty
      · simp [analyze_blink, he, blinkReasonList_iff]
      · simp [analyze_blink, he]
  · unfold resultInvariant headposeSuccessResult
    simpa using headposeReasonList_iff sv
  · unfold resultInvariant headposeFailureResult
    simp
  · intro hfail
    rcases hsc : scores with _ | ⟨a, rest⟩
    · constructor <;> rfl
    · exfalso
      have : (textureDetectorResult (analyze_texture (a :: rest))).success =
          true := by
        simp [textureDetectorResult, analyze_texture]
      rw [hsc] at hfail
      rw [this] at hfail
      exact Bool.noConfusion hfail
  · simp [textureDetectorResult]

/-- Witness for C5 at the unopenable video, a concrete headpose success,
and the faceless texture run. -/
theorem detector_result_invariant_witness :
    ((analyze_blink none).metrics = []
      ∧ (analyze_blink none).suspicious = false)
    ∧ ((textureDetectorResult (analyze_texture [])).metrics =
        [("frames_analyzed", 0), ("fake_ratio", 0), ("avg_score", 0)]) := by
  have h := detector_result_invariant none 0 0 0 0 0 0 0 0 0
    "cannot_open_video" []
  exact ⟨h.1.1 rfl, (h.2.2.2.1 rfl).1⟩

/-- C6 counterexample: with both dataset directories missing (empty
batches) the blink and emotion evaluators return before writing any
report, so no report is persisted. -/
theorem missing_dirs_no_report_counterexample :
    blinkProcessDataset (fun _ => ⟨none, 0⟩) none none = none
    ∧ emotionProcessDataset (fun _ => ⟨none, 0⟩) none none = none :=
  ⟨rfl, rfl⟩

/-- C6 (amended): every dataset run terminates with a definite outcome and
a missing directory is an empty batch, but only the texture evaluator
always persists a report; the blink, emotion and headpose evaluators
persist one exactly when at least one video was collected, returning
without a report when both batches are empty. -/
theorem dataset_run_report_persistence (analyze : String → Verdict)
    (fake_dir real_dir : Option (List String)) :
    collect_videos none = []
    ∧ (textureProcessDataset analyze fake_dir real_dir).isSome = true
    ∧ ((blinkProcessDataset analyze fake_dir real_dir).isSome = true ↔
        collect_videos fake_dir ≠ [] ∨ collect_videos real_dir ≠ [])
    ∧ (emotionProcessDataset analyze fake_dir real_dir).isSome =
        (blinkProcessDataset analyze fake_dir real_dir).isSome
    ∧ (headposeProcessDataset analyze fake_dir real_dir).isSome =
        (blinkProcessDataset analyze fake_dir real_dir).isSome := by
  refine ⟨rfl, rfl, ?_, ?_, ?_⟩
  · unfold blinkProcessDataset
    by_cases h : (collect_videos fake_dir).length +
        (collect_videos real_dir).length = 0
    · rw [if_pos h]
      rcases Nat.add_eq_zero.mp h with ⟨h1, h2⟩
      rw [List.length_eq_zero] at h1 h2
      simp [h1, h2]
    · rw [if_neg h]
      simp only [Option.isSome_some, true_iff]
      by_contra hc
      push_neg at hc
      rcases hc with ⟨h1, h2⟩
      rw [← List.length_eq_zero] at h1 h2
      omega
  · unfold emotionProcessDataset blinkProcessDataset
    by_cases h : (collect_videos fake_dir).length +
        (collect_videos real_dir).length = 0
    · rw [if_pos h, if_pos h]
      rfl
    · rw [if_neg h, if_neg h]
      rfl
  · unfold headposeProcessDataset blinkProcessDataset
    by_cases h : (collect_videos fake_dir).length +
        (collect_videos real_dir).length = 0
    · rw [if_pos h, if_pos h]
    · rw [if_neg h, if_neg h]
      rfl

lemma isNone_run_detector {α : Type} (o : TaskOutcome α) :
    (run_detector o).isNone = taskFailed o := by
  rcases o with ⟨exitOk, stdoutJson, fileJson⟩
  cases exitOk <;> cases stdoutJson <;> cases fileJson <;> rfl

lemma isSome_run_detector {α : Type} (o : TaskOutcome α) :
    (run_detector o).isSome = !taskFailed o := by
  rcases o with ⟨exitOk, stdoutJson, fileJson⟩
  cases exitOk <;> cases stdoutJson <;> cases fileJson <;> rfl

/-- C4: the combined report is keyed in the fixed order emotion, blink,
headpose, texture; each family's slot is exactly what its own task
delivered — `none` when the task failed, the parsed stdout (or fallback
file) summary unchanged when it succeeded; the number of `none` slots
equals the number of failed families, and with exactly one failure the
report has exactly one `none` and three populated summaries. -/
theorem orchestrator_failure_isolation {α : Type}
    (outcomes : Family → TaskOutcome α) :
    (orchestratorMain outcomes).map Prod.fst = familyOrder
    ∧ (∀ f : Family, (orchestratorMain outcomes).lookup f =
        some (run_detector (outcomes f)))
    ∧ (∀ f : Family, taskFailed (outcomes f) = true →
        run_detector (outcomes f) = none)
    ∧ (∀ (f : Family) (s : α), (outcomes f).exitOk = true →
        (outcomes f).stdoutJson = some s → run_detector (outcomes f) = some s)
    ∧ (∀ (f : Family) (s : α), (outcomes f).exitOk = true →
        (outcomes f).stdoutJson = none → (outcomes f).fileJson = some s →
        run_detector (outcomes f) = some s)
    ∧ (orchestratorMain outcomes).countP (fun p => p.2.isNone) =
        familyOrder.countP (fun f => taskFailed (outcomes f))
    ∧ (familyOrder.countP (fun f => taskFailed (outcomes f)) = 1 →
        (orchestratorMain outcomes).countP (fun p => p.2.isNone) = 1
        ∧ (orchestratorMain outcomes).countP (fun p => p.2.isSome) = 3) := by
  have hnone : (orchestratorMain outcomes).countP (fun p => p.2.isNone) =
      familyOrder.countP (fun f => taskFailed (outcomes f)) := by
    unfold orchestratorMain
    rw [List.countP_map]
    apply List.countP_congr
    intro f _
    show (run_detector (outcomes f)).isNone = true ↔
      taskFailed (outcomes f) = true
    rw [isNone_run_detector]
  have hsome : (orchestratorMain outcomes).countP (fun p => p.2.isSome) =
      familyOrder.countP (fun f => !taskFailed (outcomes f)) := by
    unfold orchestratorMain
    rw [List.countP_map]
    apply List.countP_congr
    intro f _
    show (run_detector (outcomes f)).isSome = true ↔
      (!taskFailed (outcomes f)) = true
    rw [isSome_run_detector]
  refine ⟨?_, ?_, ?_, ?_, ?_, hnone, ?_⟩
  · simp [orchestratorMain, familyOrder]
  · intro f
    rcases f <;> rfl
  · intro f hf
    rw [← Option.isNone_iff_eq_none, isNone_run_detector]
    exact hf
  · intro f s h1 h2
    unfold run_detector
    rw [if_pos h1, h2]
  · intro f s h1 h2 h3
    unfold run_detector
    rw [if_pos h1, h2, h3]
  · intro h1
    have hlen := List.length_eq_countP_add_countP
      (fun f => taskFailed (outcomes f)) familyOrder
    have hneg : familyOrder.countP
        (fun f => decide ¬ (taskFailed (outcomes f) = true)) =
        familyOrder.countP (fun f => !taskFailed (outcomes f)) := by
      apply List.countP_congr
      intro f _
      cases h : taskFailed (outcomes f) <;> simp [h]
    rw [hneg] at hlen
    have hlen4 : familyOrder.length = 4 := rfl
    refine ⟨by rw [hnone, h1], ?_⟩
    rw [hsome]
    omega

/-- Witness for C4: blink's task exits non-zero while the other three
succeed (emotion and texture via stdout, headpose via the fallback file);
the report keeps the fixed key order with exactly one `none` slot. -/
theorem orchestrator_failure_isolation_witness :
    (orchestratorMain (fun f : Family =>
        match f with
        | .emotion => TaskOutcome.mk true (some 1) none
        | .blink => TaskOutcome.mk false none none
        | .headpose => TaskOutcome.mk true none (some 3)
        | .texture => TaskOutcome.mk true (some (4 : ℕ)) none)).map Prod.fst
      = familyOrder
    ∧ (orchestratorMain (fun f : Family =>
        match f with
        | .emotion => TaskOutcome.mk true (some 1) none
        | .blink => TaskOutcome.mk false none none
        | .headpose => TaskOutcome.mk true none (some 3)
        | .texture => TaskOutcome.mk true (some (4 : ℕ)) none)).countP
        (fun p => p.2.isNone) = 1
    ∧ (orchestratorMain (fun f : Family =>
        match f with
        | .emotion => TaskOutcome.mk true (some 1) none
        | .blink => TaskOutcome.mk false none none
        | .headpose => TaskOutcome.mk true none (some 3)
        | .texture => TaskOutcome.mk true (some (4 : ℕ)) none)).countP
        (fun p => p.2.isSome) = 3 := by
  have h := orchestrator_failure_isolation (fun f : Family =>
    match f with
    | .emotion => TaskOutcome.mk true (some 1) none
    | .blink => TaskOutcome.mk false none none
    | .headpose => TaskOutcome.mk true none (some 3)
    | .texture => TaskOutcome.mk true (some (4 : ℕ)) none)
  exact ⟨h.1, (h.2.2.2.2.2.2 (by rfl)).1, (h.2.2.2.2.2.2 (by rfl)).2⟩

/-- C9 (code bug): on a stdout parse failure the orchestrator falls back to
`"emotion_evaluation.json"` / `name + "_evaluation.json"`, which is the
file the emotion and texture evaluators persist but NOT the one the blink
(`blink_results.json`) and headpose (`headpose_results.json`) evaluators
persist — for those two families the fallback opens a file their evaluator
never writes. -/
theorem orchestrator_fallback_filename_mismatch :
    fallbackFilename Family.blink = "blink_evaluation.json"
    ∧ evaluatorOutputFile Family.blink = "blink_results.json"
    ∧ fallbackFilename Family.blink ≠ evaluatorOutputFile Family.blink
    ∧ fallbackFilename Family.headpose ≠ evaluatorOutputFile Family.headpose
    ∧ fallbackFilename Family.emotion = evaluatorOutputFile Family.emotion
    ∧ fallbackFilename Family.texture = evaluatorOutputFile Family.texture := by
  refine ⟨by decide, rfl, by decide, by decide, rfl, by decide⟩

end Deepfake

